import Mathlib

/-!
Shallow embedding of `src/NASA-JSON-TO-CSV.py` (class `RecopiladorDatosNASANeo`):
the HTTP fetcher `obtener_datos` (retry with exponential backoff), the paginator
`obtener_todos_datos`, the transformer `procesar_datos` (pandas `json_normalize`,
column selection/rename, numeric coercion, derived average diameter), and the
orchestrator `main`.

Modelling conventions:
- A JSON scalar is `Value` (number as `ℚ`, string, boolean, null).
- A `RawRecord` is the flattened view of one NEO entry: an association list from
  dotted paths (as produced by `pd.json_normalize`) to values.
- Network effects are an oracle: `obtener_datos` receives the outcome of each
  attempt, `obtener_todos_datos` the outcome of each page request.  Sleeps are
  recorded as a list of delays in time-units; the non-terminating `while True`
  loop is run on fuel, returning `none` when fuel is exhausted mid-loop.
- `pd.to_numeric(-, errors='coerce')` is `toNumeric`: numbers pass through,
  booleans become 0/1, strings go through a decimal parse, anything else
  (including null) coerces to the missing marker `none`.
- `df[mapeo_columnas.keys()]` raises a `KeyError` when a selected column is
  absent from the normalized frame; `json_normalize` creates a column exactly
  when at least one record contains the dotted path (`hasCol`).
- Raised Python exceptions are `Except.error`; a function that returns Python
  `None` on failure returns `Option.none`.
-/

namespace NasaNeo

/-- A JSON scalar value as it appears in one cell after `pd.json_normalize`. -/
inductive Value where
  | num (q : ℚ)
  | str (s : String)
  | bool (b : Bool)
  | null
deriving Repr, DecidableEq

/-- One NEO entry, flattened to dotted-path/value pairs as `pd.json_normalize`
presents it (`estimated_diameter.kilometers.estimated_diameter_min`, ...). -/
abbrev RawRecord := List (String × Value)

/-- Dotted-path access into a flattened record; `none` models the `NaN` that
`json_normalize` leaves in a row whose record lacks the path. -/
def getPath (r : RawRecord) (p : String) : Option Value :=
  (r.find? (fun kv => kv.fst == p)).map (fun kv => kv.snd)

/-- Value of a digit string, most significant digit first. -/
def digitsVal (cs : List Char) : ℕ :=
  cs.foldl (fun n c => 10 * n + (c.toNat - 48)) 0

/-- Parse a non-empty run of decimal digits. -/
def digitsToNat (cs : List Char) : Option ℕ :=
  if cs.isEmpty then none
  else if cs.all Char.isDigit then some (digitsVal cs) else none

/-- Split a character list on the dot separator, like splitting a string on
a one-character separator: `"a.b"` gives `["a", "b"]`, no dot gives one part,
consecutive dots give empty parts. -/
def splitOnDot : List Char → List (List Char)
  | [] => [[]]
  | c :: rest =>
    let ps := splitOnDot rest
    if c = '.' then [] :: ps
    else
      match ps with
      | [] => [[c]]
      | p :: ps' => (c :: p) :: ps'

/-- Decimal-string parsing as performed by `pd.to_numeric` on string cells:
optional sign, integer digits, optional fractional part.  Anything else is
unparsable. -/
def parseRat (s : String) : Option ℚ :=
  let signo : ℚ × List Char :=
    match s.toList with
    | '-' :: rest => (-1, rest)
    | '+' :: rest => (1, rest)
    | cs => (1, cs)
  match splitOnDot signo.snd with
  | [a] => (digitsToNat a).map (fun n => signo.fst * (n : ℚ))
  | [a, b] =>
    match digitsToNat a, digitsToNat b with
    | some n, some f =>
        some (signo.fst * ((n : ℚ) + (f : ℚ) / (10 : ℚ) ^ b.length))
    | _, _ => none
  | _ => none

/-- `pd.to_numeric(v, errors='coerce')` on one cell: numbers pass through,
booleans map to 0/1, strings are parsed, null and everything unparsable
coerce to the missing marker. -/
def toNumeric : Value → Option ℚ
  | Value.num q => some q
  | Value.str s => parseRat s
  | Value.bool b => some (if b then 1 else 0)
  | Value.null => none

/-! ### HTTP fetcher: `obtener_datos` -/

/-- `max_intentos = 3` in `obtener_datos`. -/
def max_intentos : ℕ := 3

/-- One attempt's outcome: the parsed JSON body on success, or a
`requests.exceptions.RequestException` (transport error, or bad HTTP status
raised by `raise_for_status`). -/
abbrev Attempt (α : Type) := ℕ → Except Unit α

/-- The retry loop body of `obtener_datos`, by recursion on the remaining
iterations of `for intento in range(max_intentos)`.  Returns the result
(`none` models returning Python `None`), the list of backoff sleeps performed
(each `2 ** intento` time-units), and the number of attempts made. -/
def obtenerDatosGo {α : Type} (attempts : Attempt α) (intento : ℕ) :
    ℕ → Option α × List ℕ × ℕ
  | 0 => (none, [], 0)
  | restante + 1 =>
    match attempts intento with
    | Except.ok j => (some j, [], 1)
    | Except.error _ =>
      if restante = 0 then (none, [], 1)
      else
        let r := obtenerDatosGo attempts (intento + 1) restante
        (r.fst, 2 ^ intento :: r.snd.fst, r.snd.snd + 1)

/-- `obtener_datos`: up to `max_intentos` attempts with exponential backoff;
returns the first successful JSON, or `none` after exhausting retries. -/
def obtener_datos {α : Type} (attempts : Attempt α) : Option α × List ℕ × ℕ :=
  obtenerDatosGo attempts 0 max_intentos

/-! ### Paginator: `obtener_todos_datos` -/

/-- The outcome of fetching one page, as seen by `obtener_todos_datos`:
`failure` is `obtener_datos` returning `None` after retry exhaustion;
`json none` is a body without a `near_earth_objects` field;
`json (some l)` is a body whose `near_earth_objects` array holds `l`. -/
inductive FetchResult where
  | failure
  | json (neo : Option (List RawRecord))
deriving Repr

/-- The loop's stopping test:
`if not datos or 'near_earth_objects' not in datos or not datos['near_earth_objects']`. -/
def pageStops : FetchResult → Bool
  | FetchResult.failure => true
  | FetchResult.json none => true
  | FetchResult.json (some l) => l.isEmpty

/-- The records contributed by a page that does not stop the loop. -/
def pageRecords : FetchResult → List RawRecord
  | FetchResult.json (some l) => l
  | _ => []

/-- The `while True` loop of `obtener_todos_datos`, on fuel: `pages` is the
oracle giving each page request's outcome; the result is the accumulated
record list together with the total number of page requests issued, or `none`
if the fuel ran out before the loop stopped. -/
def obtenerTodosDatosAux (pages : ℕ → FetchResult) :
    ℕ → ℕ → List RawRecord → Option (List RawRecord × ℕ)
  | 0, _, _ => none
  | fuel + 1, pagina, acc =>
    let datos := pages pagina
    if pageStops datos then some (acc, pagina + 1)
    else obtenerTodosDatosAux pages fuel (pagina + 1) (acc ++ pageRecords datos)

/-- `obtener_todos_datos`: start at page 0 with an empty accumulator. -/
def obtener_todos_datos (pages : ℕ → FetchResult) (fuel : ℕ) :
    Option (List RawRecord × ℕ) :=
  obtenerTodosDatosAux pages fuel 0 []

/-! ### Transformer: `procesar_datos` -/

/-- One row of the processed DataFrame: the nine selected/renamed columns plus
the derived `diametro_promedio_km`.  Numeric columns hold `Option ℚ` after
`pd.to_numeric(-, errors='coerce')`; the remaining columns hold the raw cell
(`none` being `NaN` for a missing path). -/
structure ProcessedRow where
  id_asteroide : Option Value
  nombre : Option Value
  magnitud_absoluta : Option ℚ
  diametro_min_km : Option ℚ
  diametro_max_km : Option ℚ
  es_peligroso : Option Value
  id_orbita : Option Value
  semi_eje_mayor : Option ℚ
  excentricidad : Option ℚ
  diametro_promedio_km : Option ℚ
deriving Repr, DecidableEq

/-- `mapeo_columnas`: the fixed source-path → output-column rename map. -/
def mapeo_columnas : List (String × String) :=
  [("id", "id_asteroide"),
   ("name", "nombre"),
   ("absolute_magnitude_h", "magnitud_absoluta"),
   ("estimated_diameter.kilometers.estimated_diameter_min", "diametro_min_km"),
   ("estimated_diameter.kilometers.estimated_diameter_max", "diametro_max_km"),
   ("is_potentially_hazardous_asteroid", "es_peligroso"),
   ("orbital_data.orbit_id", "id_orbita"),
   ("orbital_data.semi_major_axis", "semi_eje_mayor"),
   ("orbital_data.eccentricity", "excentricidad")]

/-- `columnas_numericas`: the five columns coerced with `pd.to_numeric`. -/
def columnas_numericas : List String :=
  ["magnitud_absoluta", "diametro_min_km", "diametro_max_km",
   "semi_eje_mayor", "excentricidad"]

/-- The per-record effect of `procesar_datos`: select the nine paths, coerce
the five numeric columns, and derive
`diametro_promedio_km = (diametro_min_km + diametro_max_km) / 2`
(with pandas `NaN` propagation: missing if either operand is missing). -/
def procesarFila (r : RawRecord) : ProcessedRow :=
  let dmin := (getPath r "estimated_diameter.kilometers.estimated_diameter_min").bind toNumeric
  let dmax := (getPath r "estimated_diameter.kilometers.estimated_diameter_max").bind toNumeric
  { id_asteroide := getPath r "id"
    nombre := getPath r "name"
    magnitud_absoluta := (getPath r "absolute_magnitude_h").bind toNumeric
    diametro_min_km := dmin
    diametro_max_km := dmax
    es_peligroso := getPath r "is_potentially_hazardous_asteroid"
    id_orbita := getPath r "orbital_data.orbit_id"
    semi_eje_mayor := (getPath r "orbital_data.semi_major_axis").bind toNumeric
    excentricidad := (getPath r "orbital_data.eccentricity").bind toNumeric
    diametro_promedio_km := dmin.bind (fun a => dmax.map (fun b => (a + b) / 2)) }

/-- `json_normalize` creates a column for a dotted path exactly when at least
one record contains the path. -/
def hasCol (datos : List RawRecord) (p : String) : Bool :=
  datos.any (fun r => (getPath r p).isSome)

/-- `procesar_datos`: raises `ValueError("No hay datos para procesar")` on an
empty input; then `df[mapeo_columnas.keys()]` raises a `KeyError` when a
selected column is absent from the normalized frame (i.e. the path occurs in
no record); otherwise every record becomes a row, in input order. -/
def procesar_datos (datos : List RawRecord) :
    Except String (List ProcessedRow) :=
  if datos.isEmpty then Except.error "No hay datos para procesar"
  else if mapeo_columnas.all (fun kv => hasCol datos kv.fst) then
    Except.ok (datos.map procesarFila)
  else Except.error "KeyError: columnas no presentes en el indice"

/-- A call of `procesar_datos` together with the argument as the caller still
sees it after the call: the transformation builds a new frame and never
mutates the input list or its records. -/
def procesarDatosLlamada (datos : List RawRecord) :
    List RawRecord × Except String (List ProcessedRow) :=
  (datos, procesar_datos datos)

/-! ### Orchestrator: `main` -/

/-- The observable outcome of one run of `main`: whether a top-level error was
logged, how many output files `guardar_datos` wrote (CSV + summary report),
and whether the process ended with a non-zero outcome (an exception
re-raised out of `main`). -/
structure MainResult where
  errorLogged : Bool
  filesWritten : ℕ
  exitNonZero : Bool
deriving Repr, DecidableEq

/-- `main`: fetch all pages; if no records were retrieved, log
`"No se recuperaron datos de la API"` and return normally (zero outcome, no
files); otherwise process and save (two files) — any exception raised by a
stage is logged by the `except` block and re-raised (non-zero outcome, and no
files from the failed stage). -/
def mainRun (pages : ℕ → FetchResult) (fuel : ℕ) : Option MainResult :=
  (obtener_todos_datos pages fuel).map (fun res =>
    if res.fst.isEmpty then
      { errorLogged := true, filesWritten := 0, exitNonZero := false }
    else
      match procesar_datos res.fst with
      | Except.ok _ =>
          { errorLogged := false, filesWritten := 2, exitNonZero := false }
      | Except.error _ =>
          { errorLogged := true, filesWritten := 0, exitNonZero := true })

/-! ### Concrete fixtures used by witnesses and counterexamples -/

/-- A complete NEO record with all nine selected paths, diameters 0.5 km and
1.2 km (the spec's worked example for the derived average). -/
def rEjemplo : RawRecord :=
  [("id", Value.str "2000433"),
   ("name", Value.str "433 Eros"),
   ("absolute_magnitude_h", Value.num 11),
   ("estimated_diameter.kilometers.estimated_diameter_min", Value.num (1 / 2)),
   ("estimated_diameter.kilometers.estimated_diameter_max", Value.num (6 / 5)),
   ("is_potentially_hazardous_asteroid", Value.bool false),
   ("orbital_data.orbit_id", Value.str "659"),
   ("orbital_data.semi_major_axis", Value.str "1.45"),
   ("orbital_data.eccentricity", Value.str "0.22")]

/-- `rEjemplo` with the `name` path absent. -/
def rSinNombre : RawRecord :=
  [("id", Value.str "2000433"),
   ("absolute_magnitude_h", Value.num 11),
   ("estimated_diameter.kilometers.estimated_diameter_min", Value.num (1 / 2)),
   ("estimated_diameter.kilometers.estimated_diameter_max", Value.num (6 / 5)),
   ("is_potentially_hazardous_asteroid", Value.bool false),
   ("orbital_data.orbit_id", Value.str "659"),
   ("orbital_data.semi_major_axis", Value.str "1.45"),
   ("orbital_data.eccentricity", Value.str "0.22")]

/-- `rEjemplo` with the `orbital_data.orbit_id` path absent. -/
def rSinOrbita : RawRecord :=
  [("id", Value.str "2000433"),
   ("name", Value.str "433 Eros"),
   ("absolute_magnitude_h", Value.num 11),
   ("estimated_diameter.kilometers.estimated_diameter_min", Value.num (1 / 2)),
   ("estimated_diameter.kilometers.estimated_diameter_max", Value.num (6 / 5)),
   ("is_potentially_hazardous_asteroid", Value.bool false),
   ("orbital_data.semi_major_axis", Value.str "1.45"),
   ("orbital_data.eccentricity", Value.str "0.22")]

/-- `rEjemplo` with an unparsable string in `absolute_magnitude_h`. -/
def rNoParse : RawRecord :=
  [("id", Value.str "2000433"),
   ("name", Value.str "433 Eros"),
   ("absolute_magnitude_h", Value.str "no disponible"),
   ("estimated_diameter.kilometers.estimated_diameter_min", Value.num (1 / 2)),
   ("estimated_diameter.kilometers.estimated_diameter_max", Value.num (6 / 5)),
   ("is_potentially_hazardous_asteroid", Value.bool false),
   ("orbital_data.orbit_id", Value.str "659"),
   ("orbital_data.semi_major_axis", Value.str "1.45"),
   ("orbital_data.eccentricity", Value.str "0.22")]

/-- A run whose page 0 has one record and whose page 1 is empty. -/
def paginasC1 : ℕ → FetchResult :=
  fun i => if i = 0 then FetchResult.json (some [rEjemplo]) else FetchResult.json (some [])

/-- A run whose every page is a legitimately empty `near_earth_objects`. -/
def paginasVacias : ℕ → FetchResult := fun _ => FetchResult.json (some [])

/-- A run whose every page request fails after retry exhaustion. -/
def paginasFallo : ℕ → FetchResult := fun _ => FetchResult.failure

/-- An attempt oracle where every attempt fails. -/
def intentosFallo : Attempt Unit := fun _ => Except.error ()

/-- An attempt oracle with two transient failures and then a success. -/
def intentosLuegoExito : Attempt ℕ :=
  fun i => if i < 2 then Except.error () else Except.ok 42

/-! ### Shared lemmas -/

/-- Correctness of the pagination loop: if the first `K` pages (from `start`)
do not stop the loop and page `start + K` does, then with enough fuel the
loop returns the accumulator extended with the pages' records in page order,
having issued exactly `K + 1` requests beyond `start`. -/
theorem obtenerTodosDatosAux_spec (pages : ℕ → FetchResult) :
    ∀ (K fuel start : ℕ) (acc : List RawRecord),
      (∀ i, i < K → pageStops (pages (start + i)) = false) →
      pageStops (pages (start + K)) = true →
      K + 1 ≤ fuel →
      obtenerTodosDatosAux pages fuel start acc =
        some (acc ++ (List.range K).flatMap (fun i => pageRecords (pages (start + i))),
              start + K + 1) := by
  intro K
  induction K with
  | zero =>
    intro fuel start acc _ hstop hfuel
    match fuel, hfuel with
    | fuel + 1, _ =>
      simp only [Nat.add_zero] at hstop
      simp [obtenerTodosDatosAux, hstop]
  | succ K ih =>
    intro fuel start acc h hstop hfuel
    match fuel, hfuel with
    | fuel + 1, hfuel =>
      have h0 : pageStops (pages start) = false := by
        have := h 0 (Nat.succ_pos K)
        simpa using this
      have hrec := ih fuel (start + 1) (acc ++ pageRecords (pages start))
        (fun i hi => by
          have := h (i + 1) (by omega)
          have e : start + (i + 1) = start + 1 + i := by omega
          rwa [e] at this)
        (by
          have e : start + 1 + K = start + (K + 1) := by omega
          rw [e]; exact hstop)
        (by omega)
      have hlist : (acc ++ pageRecords (pages start))
            ++ (List.range K).flatMap (fun i => pageRecords (pages (start + 1 + i)))
          = acc ++ (List.range (K + 1)).flatMap (fun i => pageRecords (pages (start + i))) := by
        rw [List.range_succ_eq_map, List.flatMap_cons, List.flatMap_map]
        rw [List.append_assoc]
        have e : (fun i => pageRecords (pages (start + 1 + i)))
            = fun a => pageRecords (pages (start + Nat.succ a)) := by
          funext a
          have : start + 1 + a = start + Nat.succ a := by omega
          rw [this]
        rw [e]
        simp
      have harith : start + 1 + K + 1 = start + (K + 1) + 1 := by omega
      simp only [obtenerTodosDatosAux, h0]
      rw [hrec, hlist, harith]
      simp

/-- `flatMap` over `range K` only depends on the function below `K`. -/
theorem flatMap_range_congr {α : Type} (f g : ℕ → List α) (K : ℕ)
    (h : ∀ i, i < K → f i = g i) :
    (List.range K).flatMap f = (List.range K).flatMap g := by
  induction K with
  | zero => rfl
  | succ K ih =>
    rw [List.range_succ, List.flatMap_append, List.flatMap_append,
      ih (fun i hi => h i (by omega))]
    simp [h K (by omega)]

/-- On a non-empty input all of whose selected columns occur in some record,
`procesar_datos` succeeds and maps `procesarFila` over the records in order. -/
theorem procesar_datos_ok (datos : List RawRecord)
    (hne : datos ≠ [])
    (hcols : mapeo_columnas.all (fun kv => hasCol datos kv.fst) = true) :
    procesar_datos datos = Except.ok (datos.map procesarFila) := by
  rw [procesar_datos, if_neg (by simp [hne]), if_pos hcols]

/-! ### Claims -/

/-- Claim C1: for every run in which pages `0..K-1` each return a non-empty
`near_earth_objects` array and page `K` is the first empty or failing page,
the dataset produced by `obtener_todos_datos` followed by `procesar_datos`
has row count equal to the sum of the record counts of pages `0..K-1`, and
its rows are exactly the in-order concatenation of the pages' records mapped
through `procesarFila` — records of page `N` precede those of page `N + 1`,
the within-page order is preserved, and no record appears twice. -/
theorem C1_conteo_y_orden (pages : ℕ → FetchResult) (recs : ℕ → List RawRecord)
    (K fuel : ℕ) (filas : List ProcessedRow)
    (hpag : ∀ i, i < K → pages i = FetchResult.json (some (recs i)))
    (hne : ∀ i, i < K → recs i ≠ [])
    (hstop : pageStops (pages K) = true)
    (hfuel : K + 1 ≤ fuel)
    (hproc : procesar_datos ((List.range K).flatMap recs) = Except.ok filas) :
    obtener_todos_datos pages fuel = some ((List.range K).flatMap recs, K + 1) ∧
    filas = ((List.range K).flatMap recs).map procesarFila ∧
    filas.length = ((List.range K).map (fun i => (recs i).length)).sum := by
  have hns : ∀ i, i < K → pageStops (pages (0 + i)) = false := by
    intro i hi
    rw [Nat.zero_add, hpag i hi]
    simp [pageStops, hne i hi]
  have hstop0 : pageStops (pages (0 + K)) = true := by rw [Nat.zero_add]; exact hstop
  have hrun := obtenerTodosDatosAux_spec pages K fuel 0 [] hns hstop0 hfuel
  have hrecs : ((List.range K).flatMap fun i => pageRecords (pages (0 + i)))
      = (List.range K).flatMap recs := by
    apply flatMap_range_congr
    intro i hi
    rw [Nat.zero_add, hpag i hi]
    rfl
  have hfilas : filas = ((List.range K).flatMap recs).map procesarFila := by
    rw [procesar_datos] at hproc
    split at hproc
    · simp at hproc
    · split at hproc
      · injection hproc with h
        exact h.symm
      · simp at hproc
  refine ⟨?_, hfilas, ?_⟩
  · rw [obtener_todos_datos, hrun, hrecs]
    simp
  · rw [hfilas, List.length_map, List.length_flatMap]
    rfl

/-- Witness for C1: one non-empty page with one record, then an empty page. -/
theorem C1_conteo_y_orden_witness :
    obtener_todos_datos paginasC1 2
      = some ((List.range 1).flatMap fun _ => [rEjemplo], 1 + 1) ∧
    [procesarFila rEjemplo] = ((List.range 1).flatMap fun _ => [rEjemplo]).map procesarFila ∧
    ([procesarFila rEjemplo] : List ProcessedRow).length
      = ((List.range 1).map fun _ => ([rEjemplo] : List RawRecord).length).sum :=
  C1_conteo_y_orden paginasC1 (fun _ => [rEjemplo]) 1 2 [procesarFila rEjemplo]
    (fun i hi => by interval_cases i; rfl)
    (fun i _ => by simp)
    rfl (by omega) rfl

/-- Claim C2: on the empty input list `procesar_datos` raises
`ValueError("No hay datos para procesar")` instead of returning a dataset, so
an empty dataset is never silently persisted. -/
theorem C2_error_sin_datos :
    procesar_datos [] = Except.error "No hay datos para procesar" := rfl

/-- Counterexample to claim C3: with every page legitimately empty, pagination
yields zero records, `main` logs the failure and writes no files, but the
process outcome is zero (`exitNonZero = false`): the empty-data branch of
`main` only calls `logging.error` and returns normally, so the claimed
non-zero outcome does not occur. -/
theorem C3_contraejemplo_salida_cero :
    mainRun paginasVacias 1
      = some { errorLogged := true, filesWritten := 0, exitNonZero := false } := rfl

/-- Claim C3 as amended: for every run in which pagination yields zero total
records, the failure is logged and no output files are written, but the
process completes with a zero (success) outcome — the empty-data branch does
not raise, so the outcome is not non-zero as originally claimed. -/
theorem C3_sin_datos_solo_log (pages : ℕ → FetchResult) (fuel n : ℕ)
    (h : obtener_todos_datos pages fuel = some ([], n)) :
    mainRun pages fuel
      = some { errorLogged := true, filesWritten := 0, exitNonZero := false } := by
  rw [mainRun, h]
  rfl

/-- Witness for the amended C3: every page empty, fuel 2. -/
theorem C3_sin_datos_solo_log_witness :
    mainRun paginasVacias 2
      = some { errorLogged := true, filesWritten := 0, exitNonZero := false } :=
  C3_sin_datos_solo_log paginasVacias 2 1 rfl

/-- Claim C4: in every processed row, `diametro_promedio_km` equals
`(diametro_min_km + diametro_max_km) / 2` exactly when both operands are
present, and is the missing marker whenever either operand is missing. -/
theorem C4_diametro_promedio (r : RawRecord) :
    (∀ a b : ℚ, (procesarFila r).diametro_min_km = some a →
        (procesarFila r).diametro_max_km = some b →
        (procesarFila r).diametro_promedio_km = some ((a + b) / 2)) ∧
    ((procesarFila r).diametro_min_km = none ∨
        (procesarFila r).diametro_max_km = none →
      (procesarFila r).diametro_promedio_km = none) := by
  have hp : (procesarFila r).diametro_promedio_km
      = (procesarFila r).diametro_min_km.bind
          (fun a => (procesarFila r).diametro_max_km.map (fun b => (a + b) / 2)) := rfl
  constructor
  · intro a b ha hb
    rw [hp, ha, hb]
    rfl
  · intro h
    rcases h with h | h
    · rw [hp, h]; rfl
    · rw [hp, h]
      cases (procesarFila r).diametro_min_km <;> rfl

/-- Witness for C4: the spec's worked example, min = 0.5 and max = 1.2 give
average 0.85 = 17/20. -/
theorem C4_diametro_promedio_witness :
    (procesarFila rEjemplo).diametro_min_km = some (1 / 2) ∧
    (procesarFila rEjemplo).diametro_max_km = some (6 / 5) ∧
    (procesarFila rEjemplo).diametro_promedio_km = some (17 / 20) := by
  refine ⟨rfl, rfl, ?_⟩
  have h := (C4_diametro_promedio rEjemplo).1 (1 / 2) (6 / 5) rfl rfl
  rw [h]
  norm_num

/-- Counterexample to claim C5: on a non-empty input in which the requested
path `orbital_data.orbit_id` is missing from every record, `procesar_datos`
raises (`df[mapeo_columnas.keys()]` fails with a `KeyError` because
`json_normalize` created no such column) instead of yielding a row with a
missing marker, contradicting "including when the path is missing from every
record in the input". -/
theorem C5_contraejemplo_columna_ausente :
    procesar_datos [rSinOrbita]
      = Except.error "KeyError: columnas no presentes en el indice" := rfl

/-- Claim C5 as amended: for every non-empty input list in which each
requested dotted path is present in at least one record, `procesar_datos`
does not raise, and a record in which a requested path is missing yields the
missing marker for the corresponding field of its processed row.  (When a
path is missing from every record of the input, `procesar_datos` instead
raises a `KeyError`.) -/
theorem C5_rutas_faltantes (datos : List RawRecord)
    (hne : datos ≠ [])
    (hcols : mapeo_columnas.all (fun kv => hasCol datos kv.fst) = true) :
    procesar_datos datos = Except.ok (datos.map procesarFila) ∧
    ∀ r : RawRecord,
      (getPath r "id" = none → (procesarFila r).id_asteroide = none) ∧
      (getPath r "name" = none → (procesarFila r).nombre = none) ∧
      (getPath r "absolute_magnitude_h" = none → (procesarFila r).magnitud_absoluta = none) ∧
      (getPath r "estimated_diameter.kilometers.estimated_diameter_min" = none →
        (procesarFila r).diametro_min_km = none) ∧
      (getPath r "estimated_diameter.kilometers.estimated_diameter_max" = none →
        (procesarFila r).diametro_max_km = none) ∧
      (getPath r "is_potentially_hazardous_asteroid" = none →
        (procesarFila r).es_peligroso = none) ∧
      (getPath r "orbital_data.orbit_id" = none → (procesarFila r).id_orbita = none) ∧
      (getPath r "orbital_data.semi_major_axis" = none →
        (procesarFila r).semi_eje_mayor = none) ∧
      (getPath r "orbital_data.eccentricity" = none →
        (procesarFila r).excentricidad = none) := by
  refine ⟨procesar_datos_ok datos hne hcols, ?_⟩
  intro r
  refine ⟨fun h => h, fun h => h, fun h => ?_, fun h => ?_, fun h => ?_,
    fun h => h, fun h => h, fun h => ?_, fun h => ?_⟩
  · show (getPath r "absolute_magnitude_h").bind toNumeric = none
    rw [h]; rfl
  · show (getPath r "estimated_diameter.kilometers.estimated_diameter_min").bind toNumeric = none
    rw [h]; rfl
  · show (getPath r "estimated_diameter.kilometers.estimated_diameter_max").bind toNumeric = none
    rw [h]; rfl
  · show (getPath r "orbital_data.semi_major_axis").bind toNumeric = none
    rw [h]; rfl
  · show (getPath r "orbital_data.eccentricity").bind toNumeric = none
    rw [h]; rfl

/-- Witness for the amended C5: a record without `name` processed next to a
complete record; processing succeeds and the incomplete record's `nombre` is
the missing marker. -/
theorem C5_rutas_faltantes_witness :
    procesar_datos [rSinNombre, rEjemplo]
      = Except.ok ([rSinNombre, rEjemplo].map procesarFila) ∧
    (procesarFila rSinNombre).nombre = none := by
  refine ⟨(C5_rutas_faltantes [rSinNombre, rEjemplo] (by simp) (by decide)).1, ?_⟩
  exact (((C5_rutas_faltantes [rSinNombre, rEjemplo] (by simp) (by decide)).2
    rSinNombre).2).1 rfl

/-- Claim C6: on every accepted input, each of the five numeric fields of
every output row is the total coercion `toNumeric` of the raw cell — hence
always either a valid numeric value or the missing marker — and the
transformation succeeds regardless of the cells' contents (unparsable values
coerce to missing; no parse exception propagates). -/
theorem C6_campos_numericos (datos : List RawRecord)
    (hne : datos ≠ [])
    (hcols : mapeo_columnas.all (fun kv => hasCol datos kv.fst) = true) :
    procesar_datos datos = Except.ok (datos.map procesarFila) ∧
    ∀ r : RawRecord,
      (procesarFila r).magnitud_absoluta
        = (getPath r "absolute_magnitude_h").bind toNumeric ∧
      (procesarFila r).diametro_min_km
        = (getPath r "estimated_diameter.kilometers.estimated_diameter_min").bind toNumeric ∧
      (procesarFila r).diametro_max_km
        = (getPath r "estimated_diameter.kilometers.estimated_diameter_max").bind toNumeric ∧
      (procesarFila r).semi_eje_mayor
        = (getPath r "orbital_data.semi_major_axis").bind toNumeric ∧
      (procesarFila r).excentricidad
        = (getPath r "orbital_data.eccentricity").bind toNumeric :=
  ⟨procesar_datos_ok datos hne hcols, fun _ => ⟨rfl, rfl, rfl, rfl, rfl⟩⟩

/-- Witness for C6: a record whose `absolute_magnitude_h` is the unparsable
string "no disponible" is still processed, and the field coerces to the
missing marker. -/
theorem C6_campos_numericos_witness :
    procesar_datos [rNoParse] = Except.ok ([rNoParse].map procesarFila) ∧
    (procesarFila rNoParse).magnitud_absoluta
      = (getPath rNoParse "absolute_magnitude_h").bind toNumeric ∧
    (procesarFila rNoParse).magnitud_absoluta = none := by
  refine ⟨(C6_campos_numericos [rNoParse] (by simp) (by decide)).1,
    ((C6_campos_numericos [rNoParse] (by simp) (by decide)).2 rNoParse).1, by decide⟩

/-- Claim C7: when every attempt fails with a transport/HTTP-status error,
`obtener_datos` makes exactly 3 attempts, sleeps `2 ^ intento` time-units
between consecutive attempts (waits of 1 and 2), and returns `none` to the
caller instead of raising. -/
theorem C7_reintentos_agotados {α : Type} (attempts : Attempt α)
    (h : ∀ i, i < max_intentos → attempts i = Except.error ()) :
    obtener_datos attempts = (none, [1, 2], 3) := by
  have h0 := h 0 (by norm_num [max_intentos])
  have h1 := h 1 (by norm_num [max_intentos])
  have h2 := h 2 (by norm_num [max_intentos])
  simp [obtener_datos, obtenerDatosGo, max_intentos, h0, h1, h2]

/-- Witness for C7: the always-failing attempt oracle. -/
theorem C7_reintentos_agotados_witness :
    obtener_datos intentosFallo = (none, [1, 2], 3) :=
  C7_reintentos_agotados intentosFallo (fun _ _ => rfl)

/-- Claim C8: given 2 consecutive transient failures followed by a success,
`obtener_datos` performs exactly 2 backoff delays, of 1 and 2 time-units, and
returns the successful response's JSON after exactly 3 attempts. -/
theorem C8_reintentos_luego_exito {α : Type} (attempts : Attempt α) (j : α)
    (h0 : attempts 0 = Except.error ()) (h1 : attempts 1 = Except.error ())
    (h2 : attempts 2 = Except.ok j) :
    obtener_datos attempts = (some j, [1, 2], 3) := by
  simp [obtener_datos, obtenerDatosGo, max_intentos, h0, h1, h2]

/-- Witness for C8: two failures then the body 42. -/
theorem C8_reintentos_luego_exito_witness :
    obtener_datos intentosLuegoExito = (some 42, [1, 2], 3) :=
  C8_reintentos_luego_exito intentosLuegoExito 42 rfl rfl rfl

/-- Claim C9: once a page request yields a failure, a body without
`near_earth_objects`, or an empty array, `obtener_todos_datos` returns after
exactly `K + 1` requests (no request beyond the first stopping page); and a
fetcher failure after retry exhaustion ends pagination with the same result
as any other stopping page — two runs agreeing on pages `0..K-1` and both
stopping at page `K` are indistinguishable. -/
theorem C9_terminacion_paginacion (pages pages' : ℕ → FetchResult) (K fuel : ℕ)
    (h : ∀ i, i < K → pageStops (pages i) = false)
    (hstop : pageStops (pages K) = true)
    (hagree : ∀ i, i < K → pages' i = pages i)
    (hstop' : pageStops (pages' K) = true)
    (hfuel : K + 1 ≤ fuel) :
    (∃ L, obtener_todos_datos pages fuel = some (L, K + 1)) ∧
    obtener_todos_datos pages' fuel = obtener_todos_datos pages fuel := by
  have hns : ∀ i, i < K → pageStops (pages (0 + i)) = false := by
    intro i hi; rw [Nat.zero_add]; exact h i hi
  have hns' : ∀ i, i < K → pageStops (pages' (0 + i)) = false := by
    intro i hi; rw [Nat.zero_add, hagree i hi]; exact h i hi
  have hrun := obtenerTodosDatosAux_spec pages K fuel 0 []
    hns (by rw [Nat.zero_add]; exact hstop) hfuel
  have hrun' := obtenerTodosDatosAux_spec pages' K fuel 0 []
    hns' (by rw [Nat.zero_add]; exact hstop') hfuel
  constructor
  · refine ⟨(List.range K).flatMap fun i => pageRecords (pages i), ?_⟩
    rw [obtener_todos_datos, hrun]
    simp
  · rw [obtener_todos_datos, obtener_todos_datos, hrun, hrun']
    have : ((List.range K).flatMap fun i => pageRecords (pages' (0 + i)))
        = (List.range K).flatMap fun i => pageRecords (pages (0 + i)) := by
      apply flatMap_range_congr
      intro i hi
      simp [hagree i hi]
    rw [this]

/-- Witness for C9: retry-exhaustion failure at page 0 versus a legitimately
empty page 0 — one request each, identical results. -/
theorem C9_terminacion_paginacion_witness :
    (∃ L, obtener_todos_datos paginasFallo 1 = some (L, 0 + 1)) ∧
    obtener_todos_datos paginasVacias 1 = obtener_todos_datos paginasFallo 1 :=
  C9_terminacion_paginacion paginasFallo paginasVacias 0 1
    (fun _ hi => absurd hi (by omega))
    rfl
    (fun _ hi => absurd hi (by omega))
    rfl
    (by omega)

/-- Claim C10: `procesar_datos` is deterministic and side-effect free on its
argument: equal input lists give equal outputs, and the caller's list is the
same after the call (the embedding of the transformation is a pure function
of the input list — the Python body builds a fresh DataFrame and never
mutates `datos` or reads ambient state). -/
theorem C10_determinista (d1 d2 : List RawRecord) (h : d1 = d2) :
    (procesarDatosLlamada d1).fst = d1 ∧
    (procesarDatosLlamada d1).snd = (procesarDatosLlamada d2).snd :=
  ⟨rfl, by rw [h]⟩

/-- Witness for C10: two runs on the same one-record list. -/
theorem C10_determinista_witness :
    (procesarDatosLlamada [rEjemplo]).fst = [rEjemplo] ∧
    (procesarDatosLlamada [rEjemplo]).snd = (procesarDatosLlamada [rEjemplo]).snd :=
  C10_determinista [rEjemplo] [rEjemplo] rfl

end NasaNeo
